import Mathlib

/-!
Verification of the exam-problem viewer's selection/data cascade and
resource-caching subsystem (sources: `src/js/pdfViewer.js`,
`src/js/dataManager.js`, `src/js/app.js`).

Modelling conventions, applied uniformly:
* Time is epoch milliseconds as `Nat`; every operation that reads
  `Date.now()` in the source takes the current time `now` explicitly.
* A JavaScript `Map` is an association list in insertion order
  (`Map.set` on a fresh key appends; updating a stored object in place
  keeps the key's position; `Map.delete` removes the key; iteration is
  insertion order).
* PDF documents and decoded images are opaque resources identified by a
  `Nat`; `destroy()` calls are tracked as explicit effect lists.
* The zoom scale is an exact rational.  Every assignment to `scale`
  other than the initial value and `hidePDF` goes through `setZoom`'s
  range guard, so the claims about the scale are insensitive to the
  floating-point rounding of the original.
* `ProblemData` carries an allocation tag `ref : Nat`; two constructions
  of a problem are the same JavaScript object exactly when the whole
  structure (tag included) is equal, which models reference identity.
* Asynchronous I/O outcomes (fetch results, decode results, the online
  probe) are oracle parameters, so each operation is a pure function of
  its state, its inputs and those oracles.
-/

/-! ## Generic association-list operations (JavaScript `Map` model) -/

/-- Value stored under a key, scanning in insertion order. -/
def lookupKV {κ β : Type} [DecidableEq κ] : List (κ × β) → κ → Option β
  | [], _ => none
  | (k, v) :: rest, key => if k = key then some v else lookupKV rest key

/-- Remove the entry for a key (a `Map` holds each key once). -/
def eraseKV {κ β : Type} [DecidableEq κ] : List (κ × β) → κ → List (κ × β)
  | [], _ => []
  | (k, v) :: rest, key => if k = key then rest else (k, v) :: eraseKV rest key

/-- Update the stored value of a key in place, keeping its position. -/
def updateKV {κ β : Type} [DecidableEq κ] (l : List (κ × β)) (key : κ) (f : β → β) :
    List (κ × β) :=
  l.map fun kv => if kv.1 = key then (kv.1, f kv.2) else kv

/-! ## A sorting model for `Array.prototype.sort` with a numeric comparator

The source sorts with comparators of the form `(a, b) => parseInt(a) -
parseInt(b)` (or reversed).  A consistent comparator makes `sort` return a
list ordered by the comparator; we realise that contract with an insertion
sort parameterised by a boolean "may come before" relation. -/

/-- Insert an element in front of the first element it may precede. -/
def insertSorted {α : Type} (le : α → α → Bool) (a : α) : List α → List α
  | [] => [a]
  | b :: bs => if le a b then a :: b :: bs else b :: insertSorted le a bs

/-- Sort a list by a boolean "may come before" relation. -/
def sortBy {α : Type} (le : α → α → Bool) : List α → List α
  | [] => []
  | a :: as => insertSorted le a (sortBy le as)

/-- First-occurrence deduplication, the order a JavaScript `Set` keeps. -/
def dedupAux {α : Type} [DecidableEq α] (seen : List α) : List α → List α
  | [] => []
  | a :: as => if a ∈ seen then dedupAux seen as else a :: dedupAux (a :: seen) as

/-- Deduplicate keeping first occurrences (`[...new Set(xs)]`). -/
def dedupFirst {α : Type} [DecidableEq α] (l : List α) : List α :=
  dedupAux [] l

/-! ## `parseInt` (decimal) -/

/-- Model of the string trim used by the source: drop whitespace from
both ends of the character list. -/
def trimJS (s : String) : String :=
  String.mk (((s.toList.dropWhile Char.isWhitespace).reverse.dropWhile
    Char.isWhitespace).reverse)

/-- Leading decimal digits of a character list. -/
def leadingDigits (cs : List Char) : List Char :=
  cs.takeWhile fun c => c.isDigit

/-- Numeric value of a digit list. -/
def digitsToNat (ds : List Char) : Nat :=
  ds.foldl (fun a c => 10 * a + (c.toNat - 48)) 0

/-- Model of JavaScript `parseInt(s)` on decimal input: trim, optional
sign, then the longest leading digit run; `none` is `NaN`.  (The `0x` hex
form of `parseInt` never arises for the catalog's numeric cells.) -/
def parseIntJS (s : String) : Option Int :=
  match (trimJS s).toList with
  | '-' :: rest =>
      let ds := leadingDigits rest
      if ds.isEmpty then none else some (-(digitsToNat ds : Int))
  | '+' :: rest =>
      let ds := leadingDigits rest
      if ds.isEmpty then none else some ((digitsToNat ds : Int))
  | cs =>
      let ds := leadingDigits cs
      if ds.isEmpty then none else some ((digitsToNat ds : Int))

/-- Numeric sort key of a cell; valid catalog cells always parse. -/
def parseKey (s : String) : Int :=
  (parseIntJS s).getD 0

/-- Comparator `(a, b) => parseInt(b) - parseInt(a)`: `a` may precede `b`
when its numeric value is at least `b`'s (descending order). -/
def leDescNum (a b : String) : Bool :=
  decide (parseKey b ≤ parseKey a)

/-- Comparator `(a, b) => parseInt(a) - parseInt(b)`: ascending order. -/
def leAscNum (a b : String) : Bool :=
  decide (parseKey a ≤ parseKey b)

/-! ## DataManager (`src/js/dataManager.js`) -/

/-- One validated catalog row, fields stored as trimmed strings
(`this.csvData` elements). -/
structure CsvRecord where
  year : String
  month : String
  questionNumber : String
deriving DecidableEq

/-- The `DataManager` state: the validated rows and the loaded flag. -/
structure DataManager where
  csvData : List CsvRecord
  isDataLoaded : Bool
deriving DecidableEq

/-- Row validation of `loadCSVData`: the first three cells must be
non-empty, parse as integers, and lie in the ranges year 2000–2100,
month 1–12, question 1–999.  (The header-row test only changes the log
message; a header row is rejected either way.) -/
def rowValid (row : String × String × String) : Bool :=
  if row.1 = "" || row.2.1 = "" || row.2.2 = "" then false
  else
    match parseIntJS (trimJS row.1), parseIntJS (trimJS row.2.1), parseIntJS (trimJS row.2.2) with
    | some y, some m, some q =>
        decide (2000 ≤ y) && decide (y ≤ 2100) &&
        decide (1 ≤ m) && decide (m ≤ 12) &&
        decide (1 ≤ q) && decide (q ≤ 999)
    | _, _, _ => false

/-- Validation and storage pipeline of `loadCSVData` after parsing: keep
the valid rows, fail (`none`) when no valid row remains, and store the
trimmed first three cells. -/
def loadRecords (rows : List (String × String × String)) : Option (List CsvRecord) :=
  let valid := rows.filter rowValid
  if valid.isEmpty then none
  else some (valid.map fun r => ⟨trimJS r.1, trimJS r.2.1, trimJS r.2.2⟩)

/-- `getAvailableYears`: distinct years, sorted by the descending numeric
comparator; empty when not loaded or empty. -/
def DataManager.getAvailableYears (dm : DataManager) : List String :=
  if dm.isDataLoaded = false ∨ dm.csvData.length = 0 then []
  else sortBy leDescNum (dedupFirst (dm.csvData.map (·.year)))

/-- `getMonthsForYear`: distinct months of a year, ascending numeric
order; empty when not loaded, empty, or the year argument is falsy. -/
def DataManager.getMonthsForYear (dm : DataManager) (year : String) : List String :=
  if dm.isDataLoaded = false ∨ dm.csvData.length = 0 ∨ year = "" then []
  else
    sortBy leAscNum (dedupFirst
      ((dm.csvData.filter fun item => item.year = year).map (·.month)))

/-- `getQuestionsForYearMonth`: distinct question numbers of a pair,
ascending numeric order. -/
def DataManager.getQuestionsForYearMonth (dm : DataManager) (year month : String) :
    List String :=
  if dm.isDataLoaded = false ∨ dm.csvData.length = 0 ∨ year = "" ∨ month = "" then []
  else
    sortBy leAscNum (dedupFirst
      ((dm.csvData.filter fun item => item.year = year && item.month = month).map
        (·.questionNumber)))

/-! ## ProblemData (`src/js/dataManager.js`) -/

/-- A problem identity.  `ref` is the allocation tag: two JavaScript
`ProblemData` objects are the same reference exactly when they are equal
as `ProblemData` values here (tag included). -/
structure ProblemData where
  ref : Nat
  year : String
  month : String
  questionNumber : String
deriving DecidableEq

/-- `ProblemData.equals`: structural comparison of the three fields,
ignoring object identity. -/
def ProblemData.equalsStruct (p other : ProblemData) : Bool :=
  decide (p.year = other.year) && decide (p.month = other.month) &&
  decide (p.questionNumber = other.questionNumber)

/-! ## UIState (`src/js/pdfViewer.js`, class `UIState`)

Each setter returns the new state together with the list of properties
for which `notifyStateChange` fired, in call order. -/

/-- The property names a state-change notification can carry. -/
inductive UIProp where
  | selectedYear
  | selectedMonth
  | selectedQuestion
  | isLoading
  | isSolutionVisible
  | currentProblem
  | errorMessage
  | isPdfLoading
  | pdfError
deriving DecidableEq, BEq

/-- The `UIState` fields. -/
structure UIState where
  selectedYear : Option String
  selectedMonth : Option String
  selectedQuestion : Option String
  isLoading : Bool
  isSolutionVisible : Bool
  currentProblem : Option ProblemData
  errorMessage : Option String
  isPdfLoading : Bool
  pdfError : Option String
deriving DecidableEq

/-- The constructor's all-null/false state. -/
def UIState.initialState : UIState :=
  ⟨none, none, none, false, false, none, none, false, none⟩

/-- `setPdfError`: plain set plus notify-on-change. -/
def UIState.setPdfError (s : UIState) (error : Option String) :
    UIState × List UIProp :=
  let oldValue := s.pdfError
  let s1 := { s with pdfError := error }
  if oldValue ≠ error then (s1, [UIProp.pdfError]) else (s1, [])

/-- `setSolutionVisible`: on a transition to `false` clears `pdfError`
before its own notification. -/
def UIState.setSolutionVisible (s : UIState) (visible : Bool) :
    UIState × List UIProp :=
  let oldValue := s.isSolutionVisible
  let s1 := { s with isSolutionVisible := visible }
  if oldValue ≠ visible then
    if visible = false then
      let e := UIState.setPdfError s1 none
      (e.1, e.2 ++ [UIProp.isSolutionVisible])
    else (s1, [UIProp.isSolutionVisible])
  else (s1, [])

/-- `setCurrentProblem`: plain set plus notify; `oldValue !== problem`
is reference comparison, i.e. equality of the tagged values. -/
def UIState.setCurrentProblem (s : UIState) (problem : Option ProblemData) :
    UIState × List UIProp :=
  let oldValue := s.currentProblem
  let s1 := { s with currentProblem := problem }
  if oldValue ≠ problem then (s1, [UIProp.currentProblem]) else (s1, [])

/-- `setErrorMessage`: plain set plus notify-on-change. -/
def UIState.setErrorMessage (s : UIState) (message : Option String) :
    UIState × List UIProp :=
  let oldValue := s.errorMessage
  let s1 := { s with errorMessage := message }
  if oldValue ≠ message then (s1, [UIProp.errorMessage]) else (s1, [])

/-- `setLoading`: on a transition to `true` clears `errorMessage` before
its own notification. -/
def UIState.setLoading (s : UIState) (loading : Bool) : UIState × List UIProp :=
  let oldValue := s.isLoading
  let s1 := { s with isLoading := loading }
  if oldValue ≠ loading then
    if loading = true then
      let e := UIState.setErrorMessage s1 none
      (e.1, e.2 ++ [UIProp.isLoading])
    else (s1, [UIProp.isLoading])
  else (s1, [])

/-- `setSelectedQuestion`: on change, resets the current problem and the
solution visibility before its own notification. -/
def UIState.setSelectedQuestion (s : UIState) (question : Option String) :
    UIState × List UIProp :=
  let oldValue := s.selectedQuestion
  let s1 := { s with selectedQuestion := question }
  if oldValue ≠ question then
    let c := UIState.setCurrentProblem s1 none
    let v := UIState.setSolutionVisible c.1 false
    (v.1, c.2 ++ v.2 ++ [UIProp.selectedQuestion])
  else (s1, [])

/-- `setSelectedMonth`: on change, cascades a question reset before its
own notification. -/
def UIState.setSelectedMonth (s : UIState) (month : Option String) :
    UIState × List UIProp :=
  let oldValue := s.selectedMonth
  let s1 := { s with selectedMonth := month }
  if oldValue ≠ month then
    let q := UIState.setSelectedQuestion s1 none
    (q.1, q.2 ++ [UIProp.selectedMonth])
  else (s1, [])

/-- `setSelectedYear`: on change, cascades a month reset and a question
reset before its own notification. -/
def UIState.setSelectedYear (s : UIState) (year : Option String) :
    UIState × List UIProp :=
  let oldValue := s.selectedYear
  let s1 := { s with selectedYear := year }
  if oldValue ≠ year then
    let m := UIState.setSelectedMonth s1 none
    let q := UIState.setSelectedQuestion m.1 none
    (q.1, m.2 ++ q.2 ++ [UIProp.selectedYear])
  else (s1, [])

/-! ## The PDF viewer's caches (`src/js/pdfViewer.js`, class `PDFViewer`) -/

/-- An entry of `this.pdfCache` (`cachePDF` shape). -/
structure PdfCacheEntry where
  document : Nat
  loadTime : Nat
  lastAccess : Nat
  accessCount : Nat
  totalPages : Nat
deriving DecidableEq

/-- An entry of `this.renderedPageCache` (`cacheRenderedPage` shape);
`imageData` is the opaque rendered bitmap. -/
structure PageCacheEntry where
  imageData : Nat
  timestamp : Nat
deriving DecidableEq

/-- A rendered-page cache key: `fingerprint_page_scale`. -/
structure PageKey where
  fingerprint : Nat
  page : Nat
  scale : ℚ
deriving DecidableEq

/-- `this.maxPdfCacheSize`. -/
def maxPdfCacheSize : Nat := 5

/-- `this.maxPageCacheSize`. -/
def maxPageCacheSize : Nat := 20

/-- The loop of `cachePDF` that scans for the entry with the smallest
`lastAccess`, starting from `oldestTime = Date.now()` and updating on a
strict decrease. -/
def findOldest : List (String × PdfCacheEntry) → Option String × Nat → Option String × Nat
  | [], acc => acc
  | (p, e) :: rest, (bp, bt) =>
      if e.lastAccess < bt then findOldest rest (some p, e.lastAccess)
      else findOldest rest (bp, bt)

/-- `cachePDF`: when the cache is at capacity, destroy and remove the
least-recently-accessed entry found by the scan, then append the new
entry with `accessCount 1` and both times `now`.  The second component
lists the documents destroyed. -/
def cachePDF (cache : List (String × PdfCacheEntry)) (pdfPath : String)
    (document numPages now : Nat) :
    List (String × PdfCacheEntry) × List Nat :=
  let step :=
    if maxPdfCacheSize ≤ cache.length then
      match (findOldest cache (none, now)).1 with
      | some oldestPath =>
          match lookupKV cache oldestPath with
          | some removed => (eraseKV cache oldestPath, [removed.document])
          | none => (eraseKV cache oldestPath, [])
      | none => (cache, [])
    else (cache, [])
  (step.1 ++ [(pdfPath, ⟨document, now, now, 1, numPages⟩)], step.2)

/-- `cacheRenderedPage`: when the page cache is at capacity, delete the
first (earliest-inserted) key, then append the new entry. -/
def cacheRenderedPage (cache : List (PageKey × PageCacheEntry)) (cacheKey : PageKey)
    (imageData now : Nat) : List (PageKey × PageCacheEntry) :=
  let c1 := if maxPageCacheSize ≤ cache.length then cache.tail else cache
  c1 ++ [(cacheKey, ⟨imageData, now⟩)]

/-- `getCachedRenderedPage`: a hit younger than five minutes returns the
bitmap and leaves the cache untouched; an entry five minutes old or older
is deleted and the lookup misses. -/
def getCachedRenderedPage (cache : List (PageKey × PageCacheEntry)) (cacheKey : PageKey)
    (now : Nat) : Option Nat × List (PageKey × PageCacheEntry) :=
  match lookupKV cache cacheKey with
  | some cached =>
      if now - cached.timestamp < 5 * 60 * 1000 then (some cached.imageData, cache)
      else (none, eraseKV cache cacheKey)
  | none => (none, cache)

/-! ## The PDF viewer state machine -/

/-- The pager-relevant fields of a `PDFViewer` instance. -/
structure ViewerState where
  pdfDocument : Option Nat
  currentPage : Nat
  totalPages : Nat
  scale : ℚ
  isLoading : Bool
  pdfCache : List (String × PdfCacheEntry)
  renderedPageCache : List (PageKey × PageCacheEntry)
deriving DecidableEq

/-- The constructor's state: no document, page 1 of 0, scale 1.0, not
loading, both caches empty. -/
def initialViewer : ViewerState :=
  ⟨none, 1, 0, 1, false, [], []⟩

/-- `renderPage`: out-of-range pages (or no document) are a no-op;
otherwise consult the rendered-page cache under
`(fingerprint, page, scale)`, render and cache on a miss (`freshData`
is the bitmap the renderer produces), and set `currentPage`.  The second
component is the cache key consulted, `none` on the no-op path. -/
def renderPage (v : ViewerState) (pageNumber now freshData : Nat) :
    ViewerState × Option PageKey :=
  match v.pdfDocument with
  | none => (v, none)
  | some doc =>
      if pageNumber < 1 ∨ v.totalPages < pageNumber then (v, none)
      else
        let cacheKey : PageKey := ⟨doc, pageNumber, v.scale⟩
        let looked := getCachedRenderedPage v.renderedPageCache cacheKey now
        match looked.1 with
        | some _ =>
            ({ v with renderedPageCache := looked.2, currentPage := pageNumber },
             some cacheKey)
        | none =>
            ({ v with
                renderedPageCache := cacheRenderedPage looked.2 cacheKey freshData now,
                currentPage := pageNumber },
             some cacheKey)

/-- `loadPDF`.  `fetchResult` is the combined outcome of the HEAD probe,
the timed `getDocument` race and its validation: either an error message
or the parsed document with its page count.  A call while `isLoading`
returns at once, changing nothing and throwing nothing. -/
def loadPDF (v : ViewerState) (pdfPath : String) (now : Nat)
    (fetchResult : Except String (Nat × Nat)) (freshData : Nat) :
    ViewerState × Except String Unit :=
  if v.isLoading then (v, Except.ok ())
  else if trimJS pdfPath = "" then
    (v, Except.error "유효하지 않은 PDF 파일 경로입니다.")
  else
    match lookupKV v.pdfCache pdfPath with
    | some cachedPdf =>
        let cache1 := updateKV v.pdfCache pdfPath fun e =>
          { e with accessCount := e.accessCount + 1, lastAccess := now }
        let v1 := { v with
          pdfDocument := some cachedPdf.document,
          totalPages := cachedPdf.totalPages,
          currentPage := 1,
          pdfCache := cache1 }
        let r := renderPage v1 1 now freshData
        ({ r.1 with isLoading := false }, Except.ok ())
    | none =>
        match fetchResult with
        | Except.error msg => ({ v with isLoading := false }, Except.error msg)
        | Except.ok (document, numPages) =>
            if numPages = 0 then
              let vbad := { v with
                pdfDocument := some document
                totalPages := 0
                isLoading := false }
              (vbad, Except.error "PDF 파일에 페이지가 없습니다.")
            else
              let v1 := { v with
                pdfDocument := some document,
                totalPages := numPages,
                currentPage := 1 }
              let cached := cachePDF v1.pdfCache pdfPath document numPages now
              let v2 := { v1 with pdfCache := cached.1 }
              let r := renderPage v2 1 now freshData
              ({ r.1 with isLoading := false }, Except.ok ())

/-- `hidePDF`'s state effect after the animation: destroy the active
document and reset the pager to page 1 of 0 at scale 1.0.  The second
component lists the documents destroyed. -/
def hidePDF (v : ViewerState) : ViewerState × List Nat :=
  ({ v with pdfDocument := none, currentPage := 1, totalPages := 0, scale := 1 },
   match v.pdfDocument with
   | some d => [d]
   | none => [])

/-- `setZoom`: ignore the request without a document or outside
`[0.5, 3.0]`; otherwise set the scale and re-render the current page. -/
def setZoom (v : ViewerState) (scale : ℚ) (now freshData : Nat) :
    ViewerState × Option PageKey :=
  if v.pdfDocument = none ∨ scale < 1/2 ∨ scale > 3 then (v, none)
  else renderPage { v with scale := scale } v.currentPage now freshData

/-- `zoomIn`: multiply by 1.25, clamp to at most 3.0, delegate. -/
def zoomIn (v : ViewerState) (now freshData : Nat) : ViewerState × Option PageKey :=
  if v.pdfDocument = none then (v, none)
  else setZoom v (min (v.scale * (5/4)) 3) now freshData

/-- `zoomOut`: multiply by 0.8, clamp to at least 0.5, delegate. -/
def zoomOut (v : ViewerState) (now freshData : Nat) : ViewerState × Option PageKey :=
  if v.pdfDocument = none then (v, none)
  else setZoom v (max (v.scale * (4/5)) (1/2)) now freshData

/-- `resetZoom`: the fit scale is clamped to at most 2.0 before the
delegation (`fitWidth` is the container-derived quotient). -/
def resetZoomTo (v : ViewerState) (fitWidth : ℚ) (now freshData : Nat) :
    ViewerState × Option PageKey :=
  if v.pdfDocument = none then (v, none)
  else setZoom v (min fitWidth 2) now freshData

/-- `nextPage`: no-op at the last page. -/
def nextPage (v : ViewerState) (now freshData : Nat) : ViewerState :=
  if v.pdfDocument = none ∨ v.totalPages ≤ v.currentPage then v
  else (renderPage v (v.currentPage + 1) now freshData).1

/-- `previousPage`: no-op at the first page. -/
def previousPage (v : ViewerState) (now freshData : Nat) : ViewerState :=
  if v.pdfDocument = none ∨ v.currentPage ≤ 1 then v
  else (renderPage v (v.currentPage - 1) now freshData).1

/-- `goToPage`: no-op out of range. -/
def goToPage (v : ViewerState) (pageNumber now freshData : Nat) : ViewerState :=
  if v.pdfDocument = none ∨ pageNumber < 1 ∨ v.totalPages < pageNumber then v
  else (renderPage v pageNumber now freshData).1

/-- The viewer operations a user-facing sequence is made of. -/
inductive ViewerOp where
  | load (pdfPath : String) (now : Nat) (fetchResult : Except String (Nat × Nat))
      (freshData : Nat)
  | hide
  | opZoomIn (now freshData : Nat)
  | opZoomOut (now freshData : Nat)
  | opSetZoom (scale : ℚ) (now freshData : Nat)
  | opResetZoom (fitWidth : ℚ) (now freshData : Nat)
  | opNextPage (now freshData : Nat)
  | opPreviousPage (now freshData : Nat)
  | opGoToPage (pageNumber now freshData : Nat)

/-- Apply one viewer operation (dropping effect outputs). -/
def applyOp (v : ViewerState) : ViewerOp → ViewerState
  | ViewerOp.load p n f d => (loadPDF v p n f d).1
  | ViewerOp.hide => (hidePDF v).1
  | ViewerOp.opZoomIn n d => (zoomIn v n d).1
  | ViewerOp.opZoomOut n d => (zoomOut v n d).1
  | ViewerOp.opSetZoom s n d => (setZoom v s n d).1
  | ViewerOp.opResetZoom w n d => (resetZoomTo v w n d).1
  | ViewerOp.opNextPage n d => nextPage v n d
  | ViewerOp.opPreviousPage n d => previousPage v n d
  | ViewerOp.opGoToPage p n d => goToPage v p n d

/-- Apply a sequence of viewer operations from a state. -/
def applyOps (v : ViewerState) (ops : List ViewerOp) : ViewerState :=
  ops.foldl applyOp v

/-- `performPdfMemoryCleanup`'s removal test for a PDF entry: idle longer
than 15 minutes and accessed fewer than 2 times. -/
def pdfSweepRemoves (now : Nat) (e : PdfCacheEntry) : Bool :=
  decide (15 * 60 * 1000 < now - e.lastAccess) && decide (e.accessCount < 2)

/-- `performPdfMemoryCleanup`'s removal test for a rendered page: older
than 5 minutes, by age alone. -/
def pageSweepRemoves (now : Nat) (e : PageCacheEntry) : Bool :=
  decide (5 * 60 * 1000 < now - e.timestamp)

/-- `performPdfMemoryCleanup`: sweep both viewer caches; the middle
component lists the destroyed documents of the removed PDF entries. -/
def performPdfMemoryCleanup (pdfCache : List (String × PdfCacheEntry))
    (pageCache : List (PageKey × PageCacheEntry)) (now : Nat) :
    List (String × PdfCacheEntry) × List Nat × List (PageKey × PageCacheEntry) :=
  (pdfCache.filter fun kv => !pdfSweepRemoves now kv.2,
   (pdfCache.filter fun kv => pdfSweepRemoves now kv.2).map (·.2.document),
   pageCache.filter fun kv => !pageSweepRemoves now kv.2)

/-! ## The image cache (`src/js/pdfViewer.js`, class `ContentController`) -/

/-- An entry of `this.imageCache` (`loadImageFromCache` shape). -/
structure ImageCacheEntry where
  image : Nat
  timestamp : Nat
  accessCount : Nat
  size : Nat
deriving DecidableEq

/-- `this.maxCacheSize` of the image cache. -/
def maxImageCacheSize : Nat := 20

/-- `loadImageFromCache`: a hit returns the cached image unchanged; a
miss preloads (`preload` is the decode outcome), deletes the first
(earliest-inserted) key when at capacity, and appends the new entry with
`accessCount 1`.  The third component lists the evicted keys. -/
def loadImageFromCache (cache : List (String × ImageCacheEntry)) (imagePath : String)
    (preload : Except String Nat) (size now : Nat) :
    List (String × ImageCacheEntry) × Except String Nat × List String :=
  match lookupKV cache imagePath with
  | some cachedData => (cache, Except.ok cachedData.image, [])
  | none =>
      match preload with
      | Except.error msg => (cache, Except.error msg, [])
      | Except.ok image =>
          let step :=
            if maxImageCacheSize ≤ cache.length then
              match cache with
              | [] => (cache, ([] : List String))
              | (firstKey, _) :: rest => (rest, [firstKey])
            else (cache, [])
          (step.1 ++ [(imagePath, ⟨image, now, 1, size⟩)], Except.ok image, step.2)

/-- The post-hit bookkeeping of `displayProblemImage`: bump the entry's
access count and set its last-access time, in place. -/
def imageCacheTouch (cache : List (String × ImageCacheEntry)) (imagePath : String)
    (now : Nat) : List (String × ImageCacheEntry) :=
  updateKV cache imagePath fun e =>
    { e with accessCount := e.accessCount + 1, timestamp := now }

/-- `performMemoryCleanup`'s removal test for an image entry: idle longer
than 10 minutes and accessed fewer than 3 times. -/
def imageSweepRemoves (now : Nat) (e : ImageCacheEntry) : Bool :=
  decide (10 * 60 * 1000 < now - e.timestamp) && decide (e.accessCount < 3)

/-- `performMemoryCleanup`: sweep the image cache. -/
def performMemoryCleanup (cache : List (String × ImageCacheEntry)) (now : Nat) :
    List (String × ImageCacheEntry) :=
  cache.filter fun kv => !imageSweepRemoves now kv.2

/-! ## The retry wrapper (`src/js/app.js`, `App.retryWithBackoff`)

The connectivity probe `checkNetworkConnectivity` is the oracle
`online : Nat → Bool` (its value at the attempt that consults it), and
the wrapped operation is the oracle `op : Nat → Except String α`, the
outcome of invoking it on a given attempt. -/

/-- The connectivity-specific error thrown when the pre-retry check says
offline. -/
def connectivityErrorMsg : String :=
  "네트워크 연결을 확인할 수 없습니다. 인터넷 연결을 확인해주세요."

/-- The wrapped error after all attempts fail: it names the operation and
the attempt count and carries the last error's message. -/
def wrapRetryError (operationName : String) (maxRetries : Nat) (lastMsg : String) :
    String :=
  operationName ++ " 실패 (" ++ toString maxRetries ++ "회 시도): " ++ lastMsg

/-- One iteration of the retry loop's body: on every attempt after the
first, an offline connectivity check fails the attempt before the
operation runs; otherwise the attempt's outcome is the operation's. -/
def attemptOnce {α : Type} (online : Nat → Bool) (op : Nat → Except String α)
    (attempt : Nat) : Except String α :=
  if 1 < attempt && online attempt = false then Except.error connectivityErrorMsg
  else op attempt

/-- The retry loop from a given attempt number: return on success, break
out with the wrapped error when the final attempt fails, back off and
continue otherwise. -/
def retryFrom {α : Type} (operationName : String) (online : Nat → Bool)
    (op : Nat → Except String α) (maxRetries attempt : Nat) : Except String α :=
  match attemptOnce online op attempt with
  | Except.ok v => Except.ok v
  | Except.error e =>
      if maxRetries ≤ attempt then
        Except.error (wrapRetryError operationName maxRetries e)
      else retryFrom operationName online op maxRetries (attempt + 1)
termination_by maxRetries - attempt
decreasing_by
  simp_wf
  omega

/-- `retryWithBackoff` for `maxRetries ≥ 1`: run the loop from attempt 1.
(The backoff delays and user-facing toasts do not affect the outcome and
are omitted.) -/
def retryWithBackoff {α : Type} (operationName : String) (online : Nat → Bool)
    (op : Nat → Except String α) (maxRetries : Nat) : Except String α :=
  retryFrom operationName online op maxRetries 1

/-! # Theorems

General lemmas about the sorting and deduplication models, then the
claim theorems. -/

theorem insertSorted_perm {α : Type} (le : α → α → Bool) (a : α) (l : List α) :
    List.Perm (insertSorted le a l) (a :: l) := by
  induction l with
  | nil => simp [insertSorted]
  | cons b bs ih =>
    simp only [insertSorted]
    split
    · exact List.Perm.refl _
    · exact (List.Perm.cons b ih).trans (List.Perm.swap a b bs)

theorem pairwise_insertSorted {α : Type} (le : α → α → Bool)
    (htot : ∀ x y, le x y = true ∨ le y x = true)
    (htr : ∀ x y z, le x y = true → le y z = true → le x z = true)
    (a : α) (l : List α) (h : l.Pairwise fun x y => le x y = true) :
    (insertSorted le a l).Pairwise fun x y => le x y = true := by
  induction l with
  | nil => simp [insertSorted]
  | cons b bs ih =>
    rcases List.pairwise_cons.mp h with ⟨hb, hbs⟩
    simp only [insertSorted]
    by_cases hab : le a b = true
    · rw [if_pos hab]
      refine List.pairwise_cons.mpr ⟨?_, h⟩
      intro x hx
      rcases List.mem_cons.mp hx with rfl | hx2
      · exact hab
      · exact htr a b x hab (hb x hx2)
    · rw [if_neg hab]
      refine List.pairwise_cons.mpr ⟨?_, ih hbs⟩
      intro x hx
      rcases List.mem_cons.mp ((insertSorted_perm le a bs).mem_iff.mp hx) with heq | hx2
      · rw [heq]
        rcases htot a b with h1 | h1
        · exact absurd h1 hab
        · exact h1
      · exact hb x hx2

theorem sortBy_perm {α : Type} (le : α → α → Bool) (l : List α) :
    List.Perm (sortBy le l) l := by
  induction l with
  | nil => simp [sortBy]
  | cons a as ih =>
    exact (insertSorted_perm le a (sortBy le as)).trans (List.Perm.cons a ih)

theorem pairwise_sortBy {α : Type} (le : α → α → Bool)
    (htot : ∀ x y, le x y = true ∨ le y x = true)
    (htr : ∀ x y z, le x y = true → le y z = true → le x z = true)
    (l : List α) : (sortBy le l).Pairwise fun x y => le x y = true := by
  induction l with
  | nil => simp [sortBy]
  | cons a as ih => exact pairwise_insertSorted le htot htr a (sortBy le as) ih

theorem mem_dedupAux {α : Type} [DecidableEq α] (seen l : List α) (x : α) :
    x ∈ dedupAux seen l ↔ x ∈ l ∧ x ∉ seen := by
  induction l generalizing seen with
  | nil => simp [dedupAux]
  | cons a as ih =>
    simp only [dedupAux]
    by_cases ha : a ∈ seen
    · rw [if_pos ha]
      rw [ih]
      simp only [List.mem_cons]
      constructor
      · rintro ⟨h1, h2⟩
        exact ⟨Or.inr h1, h2⟩
      · rintro ⟨h1, h2⟩
        rcases h1 with rfl | h1
        · exact absurd ha h2
        · exact ⟨h1, h2⟩
    · rw [if_neg ha]
      simp only [List.mem_cons, ih, not_or]
      constructor
      · rintro (rfl | ⟨h1, h2, h3⟩)
        · exact ⟨Or.inl rfl, ha⟩
        · exact ⟨Or.inr h1, h3⟩
      · rintro ⟨h1, h2⟩
        by_cases hxa : x = a
        · exact Or.inl hxa
        · rcases h1 with rfl | h1
          · exact absurd rfl hxa
          · exact Or.inr ⟨h1, hxa, h2⟩

theorem nodup_dedupAux {α : Type} [DecidableEq α] (seen l : List α) :
    (dedupAux seen l).Nodup := by
  induction l generalizing seen with
  | nil => simp [dedupAux]
  | cons a as ih =>
    simp only [dedupAux]
    by_cases ha : a ∈ seen
    · rw [if_pos ha]
      exact ih seen
    · rw [if_neg ha]
      refine List.nodup_cons.mpr ⟨?_, ih (a :: seen)⟩
      intro hmem
      exact ((mem_dedupAux (a :: seen) as a).mp hmem).2 (List.mem_cons_self a seen)

theorem mem_dedupFirst {α : Type} [DecidableEq α] (l : List α) (x : α) :
    x ∈ dedupFirst l ↔ x ∈ l := by
  rw [dedupFirst, mem_dedupAux]
  simp

theorem nodup_dedupFirst {α : Type} [DecidableEq α] (l : List α) :
    (dedupFirst l).Nodup :=
  nodup_dedupAux [] l

theorem leDescNum_total (x y : String) :
    leDescNum x y = true ∨ leDescNum y x = true := by
  simp only [leDescNum, decide_eq_true_eq]
  exact le_total _ _

theorem leDescNum_trans (x y z : String) (h1 : leDescNum x y = true)
    (h2 : leDescNum y z = true) : leDescNum x z = true := by
  simp only [leDescNum, decide_eq_true_eq] at h1 h2 ⊢
  exact le_trans h2 h1

theorem leAscNum_total (x y : String) :
    leAscNum x y = true ∨ leAscNum y x = true := by
  simp only [leAscNum, decide_eq_true_eq]
  exact le_total _ _

theorem leAscNum_trans (x y z : String) (h1 : leAscNum x y = true)
    (h2 : leAscNum y z = true) : leAscNum x z = true := by
  simp only [leAscNum, decide_eq_true_eq] at h1 h2 ⊢
  exact le_trans h1 h2

theorem pairwise_strict_of_pairwise_le {α : Type} (f : α → Int) (l : List α)
    (h1 : l.Pairwise fun a b => f b ≤ f a) (h2 : l.Nodup)
    (hinj : ∀ a ∈ l, ∀ b ∈ l, a ≠ b → f a ≠ f b) :
    l.Pairwise fun a b => f b < f a := by
  induction l with
  | nil => simp
  | cons a as ih =>
    rcases List.pairwise_cons.mp h1 with ⟨hle, has⟩
    rcases List.nodup_cons.mp h2 with ⟨hmem, hnd⟩
    refine List.pairwise_cons.mpr ⟨?_, ?_⟩
    · intro x hx
      refine lt_of_le_of_ne (hle x hx) ?_
      have hne : a ≠ x := fun h => hmem (h ▸ hx)
      exact fun h => hinj a (List.mem_cons_self a as) x (List.mem_cons_of_mem a hx) hne h.symm
    · exact ih has hnd fun p hp q hq => hinj p (List.mem_cons_of_mem a hp) q (List.mem_cons_of_mem a hq)

theorem leDescNum_le {a b : String} (h : leDescNum a b = true) :
    parseKey b ≤ parseKey a := by
  simpa [leDescNum] using h

theorem leAscNum_le {a b : String} (h : leAscNum a b = true) :
    parseKey a ≤ parseKey b := by
  simpa [leAscNum] using h

theorem sorted_query_desc (l : List String) :
    (sortBy leDescNum (dedupFirst l)).Nodup ∧
    (sortBy leDescNum (dedupFirst l)).Pairwise (fun a b => parseKey b ≤ parseKey a) ∧
    ∀ x, x ∈ sortBy leDescNum (dedupFirst l) ↔ x ∈ l := by
  refine ⟨((sortBy_perm _ _).nodup_iff).mpr (nodup_dedupFirst _), ?_, ?_⟩
  · exact (pairwise_sortBy leDescNum leDescNum_total leDescNum_trans _).imp leDescNum_le
  · intro x
    rw [(sortBy_perm _ _).mem_iff, mem_dedupFirst]

theorem sorted_query_asc (l : List String) :
    (sortBy leAscNum (dedupFirst l)).Nodup ∧
    (sortBy leAscNum (dedupFirst l)).Pairwise (fun a b => parseKey a ≤ parseKey b) ∧
    ∀ x, x ∈ sortBy leAscNum (dedupFirst l) ↔ x ∈ l := by
  refine ⟨((sortBy_perm _ _).nodup_iff).mpr (nodup_dedupFirst _), ?_, ?_⟩
  · exact (pairwise_sortBy leAscNum leAscNum_total leAscNum_trans _).imp leAscNum_le
  · intro x
    rw [(sortBy_perm _ _).mem_iff, mem_dedupFirst]

theorem pairwise_strict_asc (l : List String)
    (h1 : l.Pairwise fun a b => parseKey a ≤ parseKey b) (h2 : l.Nodup)
    (hinj : ∀ a ∈ l, ∀ b ∈ l, a ≠ b → parseKey a ≠ parseKey b) :
    l.Pairwise fun a b => parseKey a < parseKey b := by
  induction l with
  | nil => simp
  | cons a as ih =>
    rcases List.pairwise_cons.mp h1 with ⟨hle, has⟩
    rcases List.nodup_cons.mp h2 with ⟨hmem, hnd⟩
    refine List.pairwise_cons.mpr ⟨?_, ?_⟩
    · intro x hx
      refine lt_of_le_of_ne (hle x hx) ?_
      have hne : a ≠ x := fun h => hmem (h ▸ hx)
      exact hinj a (List.mem_cons_self a as) x (List.mem_cons_of_mem a hx) hne
    · exact ih has hnd fun p hp q hq =>
        hinj p (List.mem_cons_of_mem a hp) q (List.mem_cons_of_mem a hq)


/-- C6 (amended): for every loaded catalog, regardless of input row
order, `getAvailableYears` returns the distinct year strings sorted in
descending numeric order, and `getMonthsForYear` /
`getQuestionsForYearMonth` return the distinct months and question
numbers of the selection sorted in ascending numeric order; the order is
strict whenever distinct stored strings have distinct numeric values
(which the load validation does not force: `"2022"` and `"02022"` can
both be stored, so strictness can fail — see the counterexample). -/
theorem c6_sorted_queries (dm : DataManager) (year month : String)
    (hl : dm.isDataLoaded = true) :
    (dm.getAvailableYears.Nodup ∧
      dm.getAvailableYears.Pairwise (fun a b => parseKey b ≤ parseKey a) ∧
      (∀ y, y ∈ dm.getAvailableYears ↔ y ∈ dm.csvData.map (·.year)) ∧
      ((∀ a ∈ dm.getAvailableYears, ∀ b ∈ dm.getAvailableYears, a ≠ b →
          parseKey a ≠ parseKey b) →
        dm.getAvailableYears.Pairwise fun a b => parseKey b < parseKey a)) ∧
    ((dm.getMonthsForYear year).Nodup ∧
      (dm.getMonthsForYear year).Pairwise (fun a b => parseKey a ≤ parseKey b) ∧
      (year ≠ "" → ∀ m, m ∈ dm.getMonthsForYear year ↔
        m ∈ (dm.csvData.filter fun item => item.year = year).map (·.month)) ∧
      ((∀ a ∈ dm.getMonthsForYear year, ∀ b ∈ dm.getMonthsForYear year, a ≠ b →
          parseKey a ≠ parseKey b) →
        (dm.getMonthsForYear year).Pairwise fun a b => parseKey a < parseKey b)) ∧
    ((dm.getQuestionsForYearMonth year month).Nodup ∧
      (dm.getQuestionsForYearMonth year month).Pairwise
        (fun a b => parseKey a ≤ parseKey b) ∧
      (year ≠ "" → month ≠ "" → ∀ q, q ∈ dm.getQuestionsForYearMonth year month ↔
        q ∈ (dm.csvData.filter fun item =>
              item.year = year && item.month = month).map (·.questionNumber)) ∧
      ((∀ a ∈ dm.getQuestionsForYearMonth year month,
          ∀ b ∈ dm.getQuestionsForYearMonth year month, a ≠ b →
          parseKey a ≠ parseKey b) →
        (dm.getQuestionsForYearMonth year month).Pairwise
          fun a b => parseKey a < parseKey b)) := by
  by_cases hd : dm.csvData.length = 0
  · have hnil : dm.csvData = [] := List.length_eq_zero.mp hd
    simp [DataManager.getAvailableYears, DataManager.getMonthsForYear,
      DataManager.getQuestionsForYearMonth, hd, hnil]
  · refine ⟨?_, ?_, ?_⟩
    · have hY := sorted_query_desc (dm.csvData.map (·.year))
      have hYe : dm.getAvailableYears =
          sortBy leDescNum (dedupFirst (dm.csvData.map (·.year))) := by
        rw [DataManager.getAvailableYears, if_neg]
        simp [hl, hd]
      rw [hYe]
      exact ⟨hY.1, hY.2.1, hY.2.2,
        fun hinj => pairwise_strict_of_pairwise_le parseKey _ hY.2.1 hY.1 hinj⟩
    · by_cases hy : year = ""
      · simp [DataManager.getMonthsForYear, hy]
      · have hM := sorted_query_asc
          ((dm.csvData.filter fun item => item.year = year).map (·.month))
        have hMe : dm.getMonthsForYear year =
            sortBy leAscNum (dedupFirst
              ((dm.csvData.filter fun item => item.year = year).map (·.month))) := by
          rw [DataManager.getMonthsForYear, if_neg]
          simp [hl, hd, hy]
        rw [hMe]
        exact ⟨hM.1, hM.2.1, fun _ => hM.2.2,
          fun hinj => pairwise_strict_asc _ hM.2.1 hM.1 hinj⟩
    · by_cases hy : year = ""
      · simp [DataManager.getQuestionsForYearMonth, hy]
      · by_cases hm : month = ""
        · simp [DataManager.getQuestionsForYearMonth, hm]
        · have hQ := sorted_query_asc
            ((dm.csvData.filter fun item =>
              item.year = year && item.month = month).map (·.questionNumber))
          have hQe : dm.getQuestionsForYearMonth year month =
              sortBy leAscNum (dedupFirst
                ((dm.csvData.filter fun item =>
                  item.year = year && item.month = month).map (·.questionNumber))) := by
            rw [DataManager.getQuestionsForYearMonth, if_neg]
            simp [hl, hd, hy, hm]
          rw [hQe]
          exact ⟨hQ.1, hQ.2.1, fun _ _ => hQ.2.2,
            fun hinj => pairwise_strict_asc _ hQ.2.1 hQ.1 hinj⟩

/-- C6 counterexample: the catalog loaded from the two valid rows
`("2022","6","1")` and `("02022","6","1")` (both pass the load
validation, since `parseInt` accepts a leading zero) stores two distinct
year strings with the same numeric value 2022, and `getAvailableYears`
is then not strictly descending by numeric value. -/
theorem c6_counterexample :
    loadRecords [("2022", "6", "1"), ("02022", "6", "1")] =
      some [⟨"2022", "6", "1"⟩, ⟨"02022", "6", "1"⟩] ∧
    DataManager.getAvailableYears ⟨[⟨"2022", "6", "1"⟩, ⟨"02022", "6", "1"⟩], true⟩ =
      ["2022", "02022"] ∧
    ¬ (DataManager.getAvailableYears
        ⟨[⟨"2022", "6", "1"⟩, ⟨"02022", "6", "1"⟩], true⟩).Pairwise
      (fun a b => parseKey b < parseKey a) := by
  refine ⟨rfl, rfl, ?_⟩
  intro hP
  have hlt := (List.pairwise_cons.mp (by
    have he : DataManager.getAvailableYears
        ⟨[⟨"2022", "6", "1"⟩, ⟨"02022", "6", "1"⟩], true⟩ = ["2022", "02022"] := rfl
    rw [he] at hP
    exact hP)).1 "02022" (List.mem_cons_self _ _)
  have h1 : parseKey "02022" = 2022 := rfl
  have h2 : parseKey "2022" = 2022 := rfl
  rw [h1, h2] at hlt
  exact absurd hlt (by omega)

/-- C6 witness: a concrete two-row loaded catalog satisfies the
hypothesis and the sortedness conclusions. -/
theorem c6_witness :
    (DataManager.mk [⟨"2022", "6", "1"⟩, ⟨"2021", "11", "5"⟩] true).isDataLoaded
        = true ∧
    ((DataManager.mk [⟨"2022", "6", "1"⟩, ⟨"2021", "11", "5"⟩] true).getAvailableYears.Nodup ∧
      (DataManager.mk [⟨"2022", "6", "1"⟩,
        ⟨"2021", "11", "5"⟩] true).getAvailableYears.Pairwise
        (fun a b => parseKey b ≤ parseKey a)) :=
  ⟨rfl,
   (c6_sorted_queries (DataManager.mk [⟨"2022", "6", "1"⟩, ⟨"2021", "11", "5"⟩] true)
      "2022" "6" rfl).1.1,
   (c6_sorted_queries (DataManager.mk [⟨"2022", "6", "1"⟩, ⟨"2021", "11", "5"⟩] true)
      "2022" "6" rfl).1.2.1⟩

set_option maxHeartbeats 3200000 in
/-- C2 (amended): for every state and every `y` different from the
current `selectedYear`, `setSelectedYear y` sets the year, resets
`selectedMonth` and `selectedQuestion` to `null`, and resets
`currentProblem` to `null` and `isSolutionVisible` to `false` exactly
when `selectedQuestion` was non-null before the call (when the question
was already `null` the inner cascade never runs, so those two fields and
`pdfError` keep their old values — see the counterexample).  Exactly one
notification fires per property whose value actually changes and none
fires for a property already at its new value: each count below is 1
precisely under the condition making the corresponding state conjunct
record a change. -/
theorem c2_cascade_amended (s : UIState) (y : Option String)
    (hy : s.selectedYear ≠ y) :
    (UIState.setSelectedYear s y).1.selectedYear = y ∧
    (UIState.setSelectedYear s y).1.selectedMonth = none ∧
    (UIState.setSelectedYear s y).1.selectedQuestion = none ∧
    (UIState.setSelectedYear s y).1.currentProblem =
      (if s.selectedQuestion = none then s.currentProblem else none) ∧
    (UIState.setSelectedYear s y).1.isSolutionVisible =
      (if s.selectedQuestion = none then s.isSolutionVisible else false) ∧
    (UIState.setSelectedYear s y).1.pdfError =
      (if s.selectedQuestion = none ∨ s.isSolutionVisible = false then s.pdfError
       else none) ∧
    (UIState.setSelectedYear s y).1.isLoading = s.isLoading ∧
    (UIState.setSelectedYear s y).1.errorMessage = s.errorMessage ∧
    (UIState.setSelectedYear s y).1.isPdfLoading = s.isPdfLoading ∧
    (UIState.setSelectedYear s y).2.count UIProp.selectedYear = 1 ∧
    (UIState.setSelectedYear s y).2.count UIProp.selectedMonth =
      (if s.selectedMonth = none then 0 else 1) ∧
    (UIState.setSelectedYear s y).2.count UIProp.selectedQuestion =
      (if s.selectedQuestion = none then 0 else 1) ∧
    (UIState.setSelectedYear s y).2.count UIProp.currentProblem =
      (if s.selectedQuestion = none ∨ s.currentProblem = none then 0 else 1) ∧
    (UIState.setSelectedYear s y).2.count UIProp.isSolutionVisible =
      (if s.selectedQuestion = none ∨ s.isSolutionVisible = false then 0 else 1) ∧
    (UIState.setSelectedYear s y).2.count UIProp.pdfError =
      (if s.selectedQuestion = none ∨ s.isSolutionVisible = false ∨ s.pdfError = none
       then 0 else 1) ∧
    (UIState.setSelectedYear s y).2.count UIProp.isLoading = 0 ∧
    (UIState.setSelectedYear s y).2.count UIProp.errorMessage = 0 ∧
    (UIState.setSelectedYear s y).2.count UIProp.isPdfLoading = 0 := by
  obtain ⟨sy, sm, sq, sl, sv, cp, em, pl, pe⟩ := s
  simp only [ne_eq] at hy
  by_cases hm : sm = none <;> by_cases hq : sq = none <;> by_cases hc : cp = none <;>
    by_cases hv : sv = false <;> by_cases hpe : pe = none <;>
      simp_all [UIState.setSelectedYear, UIState.setSelectedMonth,
        UIState.setSelectedQuestion, UIState.setCurrentProblem,
        UIState.setSolutionVisible, UIState.setPdfError, List.count_cons,
        List.count_append, List.count_nil] <;>
    decide

/-- C2 counterexample: a reachable state falsifies the claim as stated.
From the initial state, the public setter `setCurrentProblem` installs a
problem while `selectedQuestion` is still `null`; calling
`setSelectedYear "2022"` (a change of year) then leaves `currentProblem`
non-null and fires no `currentProblem` notification, although the claim
requires `currentProblem` to be forced to `null`. -/
theorem c2_counterexample :
    (UIState.setCurrentProblem UIState.initialState
        (some ⟨0, "2022", "6", "1"⟩)).1 =
      { UIState.initialState with currentProblem := some ⟨0, "2022", "6", "1"⟩ } ∧
    (UIState.setSelectedYear
        { UIState.initialState with currentProblem := some ⟨0, "2022", "6", "1"⟩ }
        (some "2022")).1.currentProblem = some ⟨0, "2022", "6", "1"⟩ ∧
    (UIState.setSelectedYear
        { UIState.initialState with currentProblem := some ⟨0, "2022", "6", "1"⟩ }
        (some "2022")).2.count UIProp.currentProblem = 0 := by
  exact ⟨rfl, rfl, rfl⟩

/-- C2 witness: the amended cascade theorem applied to a fully populated
concrete state. -/
theorem c2_witness :
    (UIState.mk (some "2021") (some "6") (some "3") false true
        (some ⟨0, "2021", "6", "3"⟩) none false (some "err")).selectedYear ≠
      some "2022" ∧
    (UIState.setSelectedYear
        (UIState.mk (some "2021") (some "6") (some "3") false true
          (some ⟨0, "2021", "6", "3"⟩) none false (some "err"))
        (some "2022")).1.selectedMonth = none ∧
    (UIState.setSelectedYear
        (UIState.mk (some "2021") (some "6") (some "3") false true
          (some ⟨0, "2021", "6", "3"⟩) none false (some "err"))
        (some "2022")).2.count UIProp.selectedMonth =
      (if (UIState.mk (some "2021") (some "6") (some "3") false true
          (some ⟨0, "2021", "6", "3"⟩) none false (some "err")).selectedMonth = none
       then 0 else 1) :=
  ⟨by decide,
   (c2_cascade_amended
      (UIState.mk (some "2021") (some "6") (some "3") false true
        (some ⟨0, "2021", "6", "3"⟩) none false (some "err"))
      (some "2022") (by decide)).2.1,
   (c2_cascade_amended
      (UIState.mk (some "2021") (some "6") (some "3") false true
        (some ⟨0, "2021", "6", "3"⟩) none false (some "err"))
      (some "2022") (by decide)).2.2.2.2.2.2.2.2.2.2.1⟩

/-- C8: `setCurrentProblem` compares the old and the new value by
reference.  For a state holding problem `p`, setting a structurally
equal but distinct instance `q` (same fields, different allocation)
updates the field to `q` and fires exactly one `currentProblem`
notification, while re-setting the identical instance `p` leaves the
state unchanged and fires none. -/
theorem c8_reference_identity (s : UIState) (p q : ProblemData)
    (href : p ≠ q) (hstruct : ProblemData.equalsStruct p q = true)
    (hs : s.currentProblem = some p) :
    (UIState.setCurrentProblem s (some q)).1.currentProblem = some q ∧
    (UIState.setCurrentProblem s (some q)).2 = [UIProp.currentProblem] ∧
    (UIState.setCurrentProblem s (some p)).1 = s ∧
    (UIState.setCurrentProblem s (some p)).2 = [] := by
  have hne : s.currentProblem ≠ some q := by
    rw [hs]
    simpa using href
  refine ⟨?_, ?_, ?_, ?_⟩
  · simp only [UIState.setCurrentProblem]
    split <;> rfl
  · simp [UIState.setCurrentProblem, hne]
  · obtain ⟨sy, sm, sq, sl, sv, cp, em, pl, pe⟩ := s
    simp only at hs
    simp [UIState.setCurrentProblem, hs]
  · simp [UIState.setCurrentProblem, hs]

/-- C8 witness: two structurally equal instances with distinct
allocation tags on a concrete state. -/
theorem c8_witness :
    (⟨0, "2022", "6", "1"⟩ : ProblemData) ≠ ⟨1, "2022", "6", "1"⟩ ∧
    ProblemData.equalsStruct ⟨0, "2022", "6", "1"⟩ ⟨1, "2022", "6", "1"⟩ = true ∧
    (UIState.mk none none none false false (some ⟨0, "2022", "6", "1"⟩) none false
        none).currentProblem = some ⟨0, "2022", "6", "1"⟩ ∧
    (UIState.setCurrentProblem
        (UIState.mk none none none false false (some ⟨0, "2022", "6", "1"⟩) none false
          none) (some ⟨1, "2022", "6", "1"⟩)).2 = [UIProp.currentProblem] :=
  ⟨by decide, by decide, rfl,
   (c8_reference_identity
      (UIState.mk none none none false false (some ⟨0, "2022", "6", "1"⟩) none false
        none) ⟨0, "2022", "6", "1"⟩ ⟨1, "2022", "6", "1"⟩ (by decide) (by decide)
      rfl).2.1⟩

theorem lookupKV_append_of_none {κ β : Type} [DecidableEq κ]
    (l1 l2 : List (κ × β)) (k : κ) (h : lookupKV l1 k = none) :
    lookupKV (l1 ++ l2) k = lookupKV l2 k := by
  induction l1 with
  | nil => simp
  | cons kv rest ih =>
    obtain ⟨a, b⟩ := kv
    by_cases hak : a = k
    · simp [lookupKV, hak] at h
    · simp only [lookupKV, List.cons_append, if_neg hak] at h ⊢
      exact ih h

theorem lookupKV_eraseKV_of_none {κ β : Type} [DecidableEq κ]
    (l : List (κ × β)) (j k : κ) (h : lookupKV l k = none) :
    lookupKV (eraseKV l j) k = none := by
  induction l with
  | nil => exact h
  | cons kv rest ih =>
    obtain ⟨a, b⟩ := kv
    by_cases hak : a = k
    · simp [lookupKV, hak] at h
    · simp only [lookupKV, if_neg hak] at h
      by_cases haj : a = j
      · simp only [eraseKV, if_pos haj]
        exact h
      · simp only [eraseKV, if_neg haj, lookupKV, if_neg hak]
        exact ih h

theorem lookupKV_updateKV {κ β : Type} [DecidableEq κ]
    (l : List (κ × β)) (k : κ) (f : β → β) :
    lookupKV (updateKV l k f) k = Option.map f (lookupKV l k) := by
  induction l with
  | nil => simp [updateKV, lookupKV]
  | cons kv rest ih =>
    obtain ⟨a, b⟩ := kv
    simp only [updateKV, List.map_cons]
    by_cases hak : a = k
    · subst hak
      rw [if_pos (show ((a, b).1 = a) from rfl)]
      simp [lookupKV]
    · rw [if_neg (show ¬ ((a, b).1 = k) from hak)]
      simp only [lookupKV, if_neg hak]
      exact ih

theorem lookupKV_mem_nodup {κ β : Type} [DecidableEq κ]
    (l : List (κ × β)) (k : κ) (e : β)
    (hmem : (k, e) ∈ l) (hnd : (l.map (·.1)).Nodup) : lookupKV l k = some e := by
  induction l with
  | nil => simp at hmem
  | cons kv rest ih =>
    obtain ⟨a, b⟩ := kv
    simp only [List.map_cons, List.nodup_cons] at hnd
    rcases List.mem_cons.mp hmem with heq | hmem2
    · injection heq with h1 h2
      subst h1
      subst h2
      simp [lookupKV]
    · have hka : a ≠ k := by
        intro hh
        subst hh
        exact hnd.1 (List.mem_map.mpr ⟨(a, e), hmem2, rfl⟩)
      simp only [lookupKV, if_neg hka]
      exact ih hmem2 hnd.2

theorem eraseKV_length_of_found {κ β : Type} [DecidableEq κ]
    (l : List (κ × β)) (k : κ) (e : β) (h : lookupKV l k = some e) :
    (eraseKV l k).length + 1 = l.length := by
  induction l with
  | nil => simp [lookupKV] at h
  | cons kv rest ih =>
    obtain ⟨a, b⟩ := kv
    by_cases hak : a = k
    · simp [eraseKV, hak]
    · simp only [lookupKV, if_neg hak] at h
      simp only [eraseKV, if_neg hak, List.length_cons]
      rw [← ih h]

theorem renderPage_fields (v : ViewerState) (p now d : Nat) :
    (renderPage v p now d).1.scale = v.scale ∧
    (renderPage v p now d).1.pdfCache = v.pdfCache ∧
    (renderPage v p now d).1.pdfDocument = v.pdfDocument ∧
    (renderPage v p now d).1.totalPages = v.totalPages ∧
    (renderPage v p now d).1.isLoading = v.isLoading ∧
    ((renderPage v p now d).1.currentPage = v.currentPage ∨
      (renderPage v p now d).1.currentPage = p) := by
  simp only [renderPage]
  split
  · simp
  · split
    · simp
    · split <;> simp

theorem renderPage_key (v : ViewerState) (doc : Nat) (p now d : Nat)
    (hdoc : v.pdfDocument = some doc) (h1 : 1 ≤ p) (h2 : p ≤ v.totalPages) :
    (renderPage v p now d).2 = some ⟨doc, p, v.scale⟩ ∧
    (renderPage v p now d).1.currentPage = p := by
  simp only [renderPage, hdoc]
  rw [if_neg (by omega)]
  split <;> simp

/-- C9: a `loadPDF` call made while a previous load is in progress
(`isLoading` is true) returns at once with no error; the state — the
document, the pager fields, and both caches — is returned unchanged, and
the result does not depend on any fetch outcome, so nothing is fetched. -/
theorem c9_loading_noop (v : ViewerState) (pdfPath : String) (now : Nat)
    (fetchResult : Except String (Nat × Nat)) (freshData : Nat)
    (h : v.isLoading = true) :
    loadPDF v pdfPath now fetchResult freshData = (v, Except.ok ()) := by
  simp [loadPDF, h]

/-- C9 witness: the no-op at a concrete loading state. -/
theorem c9_witness :
    ({ initialViewer with isLoading := true } : ViewerState).isLoading = true ∧
    loadPDF { initialViewer with isLoading := true } "sol/20220601.pdf" 5
        (Except.ok (7, 3)) 0 =
      ({ initialViewer with isLoading := true }, Except.ok ()) :=
  ⟨rfl, c9_loading_noop { initialViewer with isLoading := true } "sol/20220601.pdf" 5
    (Except.ok (7, 3)) 0 rfl⟩

/-- C10: rendered-page cache entries expire lazily in
`getCachedRenderedPage`: an entry younger than five minutes is returned
with the cache unchanged (in particular its timestamp is not updated); an
entry five minutes old or older is deleted and the lookup reports a miss;
an absent key is a miss with the cache unchanged. -/
theorem c10_page_cache_expiry (cache : List (PageKey × PageCacheEntry))
    (cacheKey : PageKey) (now : Nat) :
    (∀ e, lookupKV cache cacheKey = some e →
      (now - e.timestamp < 5 * 60 * 1000 →
        getCachedRenderedPage cache cacheKey now = (some e.imageData, cache)) ∧
      (5 * 60 * 1000 ≤ now - e.timestamp →
        getCachedRenderedPage cache cacheKey now = (none, eraseKV cache cacheKey))) ∧
    (lookupKV cache cacheKey = none →
      getCachedRenderedPage cache cacheKey now = (none, cache)) := by
  constructor
  · intro e he
    constructor
    · intro hage
      simp [getCachedRenderedPage, he, hage]
    · intro hage
      simp only [getCachedRenderedPage, he]
      rw [if_neg (by omega)]
  · intro he
    simp [getCachedRenderedPage, he]

/-- C10 witness: a young entry hits and an entry exactly five minutes
old is deleted. -/
theorem c10_witness :
    lookupKV [(PageKey.mk 1 1 1, PageCacheEntry.mk 42 100)] (PageKey.mk 1 1 1) =
      some (PageCacheEntry.mk 42 100) ∧
    getCachedRenderedPage [(PageKey.mk 1 1 1, PageCacheEntry.mk 42 100)]
        (PageKey.mk 1 1 1) 200 =
      (some 42, [(PageKey.mk 1 1 1, PageCacheEntry.mk 42 100)]) ∧
    getCachedRenderedPage [(PageKey.mk 1 1 1, PageCacheEntry.mk 42 100)]
        (PageKey.mk 1 1 1) 300100 = (none, []) :=
  ⟨rfl,
   ((c10_page_cache_expiry [(PageKey.mk 1 1 1, PageCacheEntry.mk 42 100)]
      (PageKey.mk 1 1 1) 200).1 (PageCacheEntry.mk 42 100) rfl).1 (by norm_num),
   ((c10_page_cache_expiry [(PageKey.mk 1 1 1, PageCacheEntry.mk 42 100)]
      (PageKey.mk 1 1 1) 300100).1 (PageCacheEntry.mk 42 100) rfl).2 (by norm_num)⟩

/-- C5: the sweeps remove exactly the claimed entries.  An image entry
is removed by `performMemoryCleanup` exactly when it has been idle
longer than ten minutes and accessed fewer than three times; a PDF entry
is removed by `performPdfMemoryCleanup` exactly when idle longer than
fifteen minutes and accessed fewer than two times, and the underlying
document of each removed PDF entry is destroyed exactly once; rendered
pages are purged by age alone (older than five minutes).  An entry of
exactly the threshold age, or with an access count at or above the
floor, survives. -/
theorem c5_sweep :
    (∀ (cache : List (String × ImageCacheEntry)) (now : Nat) (k : String)
        (e : ImageCacheEntry),
      (k, e) ∈ performMemoryCleanup cache now ↔
        (k, e) ∈ cache ∧
        ¬(10 * 60 * 1000 < now - e.timestamp ∧ e.accessCount < 3)) ∧
    (∀ (pdfCache : List (String × PdfCacheEntry))
        (pageCache : List (PageKey × PageCacheEntry)) (now : Nat) (k : String)
        (e : PdfCacheEntry),
      (k, e) ∈ (performPdfMemoryCleanup pdfCache pageCache now).1 ↔
        (k, e) ∈ pdfCache ∧
        ¬(15 * 60 * 1000 < now - e.lastAccess ∧ e.accessCount < 2)) ∧
    (∀ (pdfCache : List (String × PdfCacheEntry))
        (pageCache : List (PageKey × PageCacheEntry)) (now : Nat),
      (performPdfMemoryCleanup pdfCache pageCache now).2.1 =
        (pdfCache.filter fun kv => pdfSweepRemoves now kv.2).map (·.2.document)) ∧
    (∀ (pdfCache : List (String × PdfCacheEntry))
        (pageCache : List (PageKey × PageCacheEntry)) (now : Nat) (k : PageKey)
        (e : PageCacheEntry),
      (k, e) ∈ (performPdfMemoryCleanup pdfCache pageCache now).2.2 ↔
        (k, e) ∈ pageCache ∧ ¬(5 * 60 * 1000 < now - e.timestamp)) := by
  refine ⟨?_, ?_, ?_, ?_⟩
  · intro cache now k e
    simp only [performMemoryCleanup, List.mem_filter, imageSweepRemoves,
      Bool.not_eq_true', Bool.and_eq_false_iff, decide_eq_false_iff_not, not_lt,
      and_congr_right_iff]
    intro _
    omega
  · intro pdfCache pageCache now k e
    simp only [performPdfMemoryCleanup, List.mem_filter, pdfSweepRemoves,
      Bool.not_eq_true', Bool.and_eq_false_iff, decide_eq_false_iff_not, not_lt,
      and_congr_right_iff]
    intro _
    omega
  · intro pdfCache pageCache now
    rfl
  · intro pdfCache pageCache now k e
    simp [performPdfMemoryCleanup, List.mem_filter, pageSweepRemoves]

theorem cachePDF_lookup_new (cache : List (String × PdfCacheEntry))
    (pdfPath : String) (document numPages now : Nat)
    (h : lookupKV cache pdfPath = none) :
    lookupKV (cachePDF cache pdfPath document numPages now).1 pdfPath =
      some ⟨document, now, now, 1, numPages⟩ := by
  simp only [cachePDF]
  split
  · split
    · split
      · rw [lookupKV_append_of_none _ _ _ (lookupKV_eraseKV_of_none _ _ _ h)]
        simp [lookupKV]
      · rw [lookupKV_append_of_none _ _ _ (lookupKV_eraseKV_of_none _ _ _ h)]
        simp [lookupKV]
    · rw [lookupKV_append_of_none _ _ _ h]
      simp [lookupKV]
  · rw [lookupKV_append_of_none _ _ _ h]
    simp [lookupKV]

theorem loadPDF_cache_hit (v : ViewerState) (pdfPath : String) (now : Nat)
    (fetchResult : Except String (Nat × Nat)) (freshData : Nat)
    (entry : PdfCacheEntry)
    (hnl : v.isLoading = false) (hempty : ¬ trimJS pdfPath = "")
    (hcache : lookupKV v.pdfCache pdfPath = some entry) :
    loadPDF v pdfPath now fetchResult freshData =
      ({ (renderPage { v with
            pdfDocument := some entry.document, totalPages := entry.totalPages,
            currentPage := 1,
            pdfCache := updateKV v.pdfCache pdfPath fun e =>
              { e with accessCount := e.accessCount + 1, lastAccess := now } }
          1 now freshData).1 with isLoading := false }, Except.ok ()) := by
  simp only [loadPDF]
  rw [if_neg (show ¬ v.isLoading = true by simp [hnl])]
  rw [if_neg hempty, hcache]

theorem loadPDF_fresh_success (v : ViewerState) (pdfPath : String)
    (now document numPages freshData : Nat)
    (hnl : v.isLoading = false) (hempty : ¬ trimJS pdfPath = "")
    (hcache : lookupKV v.pdfCache pdfPath = none) (hz : numPages ≠ 0) :
    loadPDF v pdfPath now (Except.ok (document, numPages)) freshData =
      ({ (renderPage { v with
            pdfDocument := some document, totalPages := numPages, currentPage := 1,
            pdfCache := (cachePDF v.pdfCache pdfPath document numPages now).1 }
          1 now freshData).1 with isLoading := false }, Except.ok ()) := by
  simp only [loadPDF]
  rw [if_neg (show ¬ v.isLoading = true by simp [hnl])]
  rw [if_neg hempty, hcache]
  simp only [if_neg hz]

/-- C3 (amended): whenever `loadPDF` completes successfully — by a
document-cache hit or by a fresh fetch and parse — the pager is reset to
`currentPage = 1` and the loaded document is stored in the document
cache under the requested path; the zoom `scale`, however, is NOT reset:
it keeps its previous value (`loadPDF` never assigns `scale`; only
`hidePDF` resets it to 1.0 — see the counterexample). -/
theorem c3_load_success_amended (v : ViewerState) (pdfPath : String) (now : Nat)
    (fetchResult : Except String (Nat × Nat)) (freshData : Nat)
    (hnl : v.isLoading = false)
    (hok : (loadPDF v pdfPath now fetchResult freshData).2 = Except.ok ()) :
    (loadPDF v pdfPath now fetchResult freshData).1.currentPage = 1 ∧
    (loadPDF v pdfPath now fetchResult freshData).1.scale = v.scale ∧
    (∃ e, lookupKV (loadPDF v pdfPath now fetchResult freshData).1.pdfCache pdfPath =
        some e ∧
      (loadPDF v pdfPath now fetchResult freshData).1.pdfDocument =
        some e.document) := by
  by_cases hempty : trimJS pdfPath = ""
  · exfalso
    simp only [loadPDF] at hok
    rw [if_neg (show ¬ v.isLoading = true by simp [hnl]), if_pos hempty] at hok
    simp at hok
  · rcases hcache : lookupKV v.pdfCache pdfPath with _ | entry
    · rcases fetchResult with msg | ⟨document, numPages⟩
      · exfalso
        simp only [loadPDF] at hok
        rw [if_neg (show ¬ v.isLoading = true by simp [hnl]), if_neg hempty,
          hcache] at hok
        simp at hok
      · by_cases hz : numPages = 0
        · exfalso
          simp only [loadPDF] at hok
          rw [if_neg (show ¬ v.isLoading = true by simp [hnl]), if_neg hempty,
            hcache] at hok
          simp only [if_pos hz] at hok
          simp at hok
        · rw [loadPDF_fresh_success v pdfPath now document numPages freshData hnl
            hempty hcache hz]
          obtain ⟨r1, r2, r3, r4, r5, r6⟩ := renderPage_fields
            { v with
                pdfDocument := some document, totalPages := numPages, currentPage := 1,
                pdfCache := (cachePDF v.pdfCache pdfPath document numPages now).1 }
            1 now freshData
          refine ⟨?_, ?_, ?_⟩
          · rcases r6 with h | h <;> simp [h]
          · simp [r1]
          · refine ⟨⟨document, now, now, 1, numPages⟩, ?_, ?_⟩
            · simp only [r2]
              exact cachePDF_lookup_new v.pdfCache pdfPath document numPages now hcache
            · simp [r3]
    · rw [loadPDF_cache_hit v pdfPath now fetchResult freshData entry hnl hempty
        hcache]
      obtain ⟨r1, r2, r3, r4, r5, r6⟩ := renderPage_fields
        { v with
            pdfDocument := some entry.document, totalPages := entry.totalPages,
            currentPage := 1,
            pdfCache := updateKV v.pdfCache pdfPath fun e =>
              { e with accessCount := e.accessCount + 1, lastAccess := now } }
        1 now freshData
      refine ⟨?_, ?_, ?_⟩
      · rcases r6 with h | h <;> simp [h]
      · simp [r1]
      · refine ⟨{ entry with accessCount := entry.accessCount + 1, lastAccess := now },
          ?_, ?_⟩
        · simp only [r2]
          rw [lookupKV_updateKV, hcache]
          rfl
        · simp [r3]

/-- C3 counterexample: from a viewer whose zoom scale is 2.0 (a scale
reachable through `resetZoom`/`setZoom`, and kept across loads), a fresh
`loadPDF` succeeds, resets the page to 1, but leaves the scale at 2.0 —
the claim's "scale is reset to 1.0 on every successful load" is false. -/
theorem c3_counterexample :
    (loadPDF { initialViewer with scale := 2 } "a.pdf" 0 (Except.ok (1, 3)) 10).2 =
      Except.ok () ∧
    (loadPDF { initialViewer with scale := 2 } "a.pdf" 0
      (Except.ok (1, 3)) 10).1.currentPage = 1 ∧
    (loadPDF { initialViewer with scale := 2 } "a.pdf" 0
      (Except.ok (1, 3)) 10).1.scale = 2 :=
  ⟨rfl, rfl, rfl⟩

/-- C3 witness: the amended theorem applied to a fresh successful load
at a state with a non-default scale. -/
theorem c3_witness :
    ({ initialViewer with scale := 2 } : ViewerState).isLoading = false ∧
    (loadPDF { initialViewer with scale := 2 } "sol/20220601.pdf" 7
        (Except.ok (9, 4)) 55).2 = Except.ok () ∧
    (loadPDF { initialViewer with scale := 2 } "sol/20220601.pdf" 7
        (Except.ok (9, 4)) 55).1.currentPage = 1 ∧
    (loadPDF { initialViewer with scale := 2 } "sol/20220601.pdf" 7
        (Except.ok (9, 4)) 55).1.scale =
      ({ initialViewer with scale := 2 } : ViewerState).scale :=
  ⟨rfl, rfl,
   (c3_load_success_amended { initialViewer with scale := 2 } "sol/20220601.pdf" 7
      (Except.ok (9, 4)) 55 rfl rfl).1,
   (c3_load_success_amended { initialViewer with scale := 2 } "sol/20220601.pdf" 7
      (Except.ok (9, 4)) 55 rfl rfl).2.1⟩

theorem renderPage_scale (v : ViewerState) (p now d : Nat) :
    (renderPage v p now d).1.scale = v.scale :=
  (renderPage_fields v p now d).1

theorem renderPage_pdfCache (v : ViewerState) (p now d : Nat) :
    (renderPage v p now d).1.pdfCache = v.pdfCache :=
  (renderPage_fields v p now d).2.1

theorem loadPDF_scale (v : ViewerState) (pdfPath : String) (now : Nat)
    (fetchResult : Except String (Nat × Nat)) (freshData : Nat) :
    (loadPDF v pdfPath now fetchResult freshData).1.scale = v.scale := by
  simp only [loadPDF]
  split
  · rfl
  split
  · rfl
  split
  · simp [renderPage_scale]
  split
  · rfl
  split
  · rfl
  · simp [renderPage_scale]

theorem setZoom_scale_cases (v : ViewerState) (s : ℚ) (now d : Nat) :
    (setZoom v s now d).1.scale = v.scale ∨
    ((setZoom v s now d).1.scale = s ∧ 1/2 ≤ s ∧ s ≤ 3) := by
  simp only [setZoom]
  split
  · left
    rfl
  · next h =>
    push_neg at h
    right
    refine ⟨?_, h.2.1, h.2.2⟩
    rw [renderPage_scale]

theorem setZoom_accepted_scale (v : ViewerState) (s : ℚ) (now d : Nat)
    (hdoc : v.pdfDocument ≠ none) (hlo : ¬ s < 1/2) (hhi : ¬ s > 3) :
    (setZoom v s now d).1.scale = s := by
  simp only [setZoom]
  rw [if_neg (by
    intro hcon
    rcases hcon with h | h | h
    · exact hdoc h
    · exact hlo h
    · exact hhi h)]
  rw [renderPage_scale]

theorem scaleInv_applyOp (v : ViewerState) (op : ViewerOp)
    (h1 : 1/2 ≤ v.scale) (h2 : v.scale ≤ 3) :
    1/2 ≤ (applyOp v op).scale ∧ (applyOp v op).scale ≤ 3 := by
  have hsz : ∀ (s : ℚ) (now d : Nat),
      1/2 ≤ (setZoom v s now d).1.scale ∧ (setZoom v s now d).1.scale ≤ 3 := by
    intro s now d
    rcases setZoom_scale_cases v s now d with h | ⟨h, hl, hh⟩
    · rw [h]
      exact ⟨h1, h2⟩
    · rw [h]
      exact ⟨hl, hh⟩
  cases op with
  | load p n f d =>
      simp only [applyOp]
      rw [loadPDF_scale]
      exact ⟨h1, h2⟩
  | hide =>
      simp only [applyOp, hidePDF]
      norm_num
  | opZoomIn n d =>
      simp only [applyOp, zoomIn]
      split
      · exact ⟨h1, h2⟩
      · exact hsz _ n d
  | opZoomOut n d =>
      simp only [applyOp, zoomOut]
      split
      · exact ⟨h1, h2⟩
      · exact hsz _ n d
  | opSetZoom s n d =>
      simp only [applyOp]
      exact hsz s n d
  | opResetZoom w n d =>
      simp only [applyOp, resetZoomTo]
      split
      · exact ⟨h1, h2⟩
      · exact hsz _ n d
  | opNextPage n d =>
      simp only [applyOp, nextPage]
      split
      · exact ⟨h1, h2⟩
      · rw [renderPage_scale]
        exact ⟨h1, h2⟩
  | opPreviousPage n d =>
      simp only [applyOp, previousPage]
      split
      · exact ⟨h1, h2⟩
      · rw [renderPage_scale]
        exact ⟨h1, h2⟩
  | opGoToPage p n d =>
      simp only [applyOp, goToPage]
      split
      · exact ⟨h1, h2⟩
      · rw [renderPage_scale]
        exact ⟨h1, h2⟩

theorem scaleInv_applyOps (ops : List ViewerOp) (v : ViewerState)
    (h1 : 1/2 ≤ v.scale) (h2 : v.scale ≤ 3) :
    1/2 ≤ (applyOps v ops).scale ∧ (applyOps v ops).scale ≤ 3 := by
  induction ops generalizing v with
  | nil => exact ⟨h1, h2⟩
  | cons op rest ih =>
      simp only [applyOps, List.foldl_cons]
      obtain ⟨g1, g2⟩ := scaleInv_applyOp v op h1 h2
      exact ih (applyOp v op) g1 g2

/-- C7: the pager's scale is an invariant of every operation sequence.
It starts at 1.0 and stays within `[0.5, 3.0]` across any sequence of
loads, hides, page navigation and zoom operations (every scale
assignment other than the 1.0 resets passes `setZoom`'s range guard).
An accepted `setZoom` sets the scale and re-renders the current page
under the new `(fingerprint, page, scale)` cache key, and
`zoomIn` / `zoomOut` multiply the scale by 1.25 / 0.8 clamped to
3.0 / 0.5 respectively. -/
theorem c7_scale_invariant :
    initialViewer.scale = 1 ∧
    (∀ ops : List ViewerOp, 1/2 ≤ (applyOps initialViewer ops).scale ∧
      (applyOps initialViewer ops).scale ≤ 3) ∧
    (∀ (v : ViewerState) (doc : Nat) (s : ℚ) (now freshData : Nat),
      v.pdfDocument = some doc → ¬ s < 1/2 → ¬ s > 3 →
      1 ≤ v.currentPage → v.currentPage ≤ v.totalPages →
      (setZoom v s now freshData).1.scale = s ∧
      (setZoom v s now freshData).2 = some ⟨doc, v.currentPage, s⟩) ∧
    (∀ (v : ViewerState) (doc : Nat) (now freshData : Nat),
      v.pdfDocument = some doc → 1/2 ≤ v.scale → v.scale ≤ 3 →
      (zoomIn v now freshData).1.scale = min (v.scale * (5/4)) 3 ∧
      (zoomOut v now freshData).1.scale = max (v.scale * (4/5)) (1/2)) := by
  refine ⟨rfl, ?_, ?_, ?_⟩
  · intro ops
    exact scaleInv_applyOps ops initialViewer (by norm_num [initialViewer])
      (by norm_num [initialViewer])
  · intro v doc s now freshData hdoc hlo hhi hp1 hp2
    constructor
    · exact setZoom_accepted_scale v s now freshData (by simp [hdoc]) hlo hhi
    · simp only [setZoom]
      rw [if_neg (by
        intro hcon
        rcases hcon with h | h | h
        · simp [hdoc] at h
        · exact hlo h
        · exact hhi h)]
      have hkey := renderPage_key { v with scale := s } doc v.currentPage now
        freshData (by simpa using hdoc) hp1 (by simpa using hp2)
      exact hkey.1
  · intro v doc now freshData hdoc h1 h2
    constructor
    · simp only [zoomIn]
      rw [if_neg (by simp [hdoc])]
      refine setZoom_accepted_scale v _ now freshData (by simp [hdoc]) ?_ ?_
      · rw [not_lt, le_min_iff]
        constructor
        · linarith
        · norm_num
      · rw [not_lt]
        exact min_le_right _ _
    · simp only [zoomOut]
      rw [if_neg (by simp [hdoc])]
      refine setZoom_accepted_scale v _ now freshData (by simp [hdoc]) ?_ ?_
      · rw [not_lt]
        exact le_max_right _ _
      · rw [not_lt, max_le_iff]
        constructor
        · linarith
        · norm_num

/-- C7 witness: the invariant after a concrete operation sequence, and
an accepted concrete zoom re-rendering under the new scale key. -/
theorem c7_witness :
    (1/2 ≤ (applyOps initialViewer
        [ViewerOp.load "a.pdf" 0 (Except.ok (1, 3)) 10,
         ViewerOp.opZoomIn 1 11, ViewerOp.opZoomIn 2 12]).scale ∧
      (applyOps initialViewer
        [ViewerOp.load "a.pdf" 0 (Except.ok (1, 3)) 10,
         ViewerOp.opZoomIn 1 11, ViewerOp.opZoomIn 2 12]).scale ≤ 3) ∧
    ((ViewerState.mk (some 1) 1 3 1 false [] []).pdfDocument = some 1 ∧
      ¬ (2 : ℚ) < 1/2 ∧ ¬ (2 : ℚ) > 3) ∧
    (setZoom (ViewerState.mk (some 1) 1 3 1 false [] []) 2 5 9).1.scale = 2 ∧
    (setZoom (ViewerState.mk (some 1) 1 3 1 false [] []) 2 5 9).2 =
      some ⟨1, 1, 2⟩ :=
  ⟨c7_scale_invariant.2.1 [ViewerOp.load "a.pdf" 0 (Except.ok (1, 3)) 10,
      ViewerOp.opZoomIn 1 11, ViewerOp.opZoomIn 2 12],
   ⟨rfl, by norm_num, by norm_num⟩,
   (c7_scale_invariant.2.2.1 (ViewerState.mk (some 1) 1 3 1 false [] []) 1 2 5 9
      rfl (by norm_num) (by norm_num) (by norm_num) (by norm_num)).1,
   (c7_scale_invariant.2.2.1 (ViewerState.mk (some 1) 1 3 1 false [] []) 1 2 5 9
      rfl (by norm_num) (by norm_num) (by norm_num) (by norm_num)).2⟩

theorem findOldest_spec (l : List (String × PdfCacheEntry)) (bp : Option String)
    (bt : Nat) :
    (findOldest l (bp, bt)).2 ≤ bt ∧
    (∀ kv ∈ l, (findOldest l (bp, bt)).2 ≤ kv.2.lastAccess) ∧
    (((findOldest l (bp, bt)).1 = bp ∧ (findOldest l (bp, bt)).2 = bt) ∨
      ∃ k e, (k, e) ∈ l ∧ (findOldest l (bp, bt)).1 = some k ∧
        (findOldest l (bp, bt)).2 = e.lastAccess) := by
  induction l generalizing bp bt with
  | nil => simp [findOldest]
  | cons kv rest ih =>
    obtain ⟨p, e⟩ := kv
    simp only [findOldest]
    by_cases hlt : e.lastAccess < bt
    · rw [if_pos hlt]
      rcases ih (some p) e.lastAccess with ⟨ih1, ih2, ih3⟩
      refine ⟨le_trans ih1 (le_of_lt hlt), ?_, ?_⟩
      · intro kv2 hkv2
        rcases List.mem_cons.mp hkv2 with heq | hmem
        · rw [heq]
          exact ih1
        · exact ih2 kv2 hmem
      · rcases ih3 with ⟨h1, h2⟩ | ⟨k, e2, hmem, h1, h2⟩
        · right
          exact ⟨p, e, List.mem_cons_self _ _, h1, h2⟩
        · right
          exact ⟨k, e2, List.mem_cons_of_mem _ hmem, h1, h2⟩
    · rw [if_neg hlt]
      rcases ih bp bt with ⟨ih1, ih2, ih3⟩
      refine ⟨ih1, ?_, ?_⟩
      · intro kv2 hkv2
        rcases List.mem_cons.mp hkv2 with heq | hmem
        · rw [heq]
          simp only [not_lt] at hlt
          show (findOldest rest (bp, bt)).2 ≤ e.lastAccess
          omega
        · exact ih2 kv2 hmem
      · rcases ih3 with h | ⟨k, e2, hmem, h1, h2⟩
        · left
          exact h
        · right
          exact ⟨k, e2, List.mem_cons_of_mem _ hmem, h1, h2⟩

/-- C1 (amended): inserting a `capacity + 1`-st distinct key evicts
exactly one entry in each cache, but only the PDF-document cache evicts
by recency of access.  For the PDF cache (capacity 5), provided every
stored entry was last accessed strictly before the insertion time, the
evicted entry is one with minimal `lastAccess` and its document is
destroyed exactly once, synchronously within `cachePDF`.  The
decoded-image cache (capacity 20) and the rendered-page cache (capacity
20) instead delete their first — i.e. earliest-inserted — key,
regardless of access recency (FIFO, not LRU; see the counterexample). -/
theorem c1_eviction_amended :
    (∀ (cache : List (String × PdfCacheEntry)) (pdfPath : String)
        (document numPages now : Nat),
      cache.length = 5 →
      lookupKV cache pdfPath = none →
      (cache.map (·.1)).Nodup →
      (∀ kv ∈ cache, kv.2.lastAccess < now) →
      ∃ k e, lookupKV cache k = some e ∧
        (∀ kv ∈ cache, e.lastAccess ≤ kv.2.lastAccess) ∧
        (cachePDF cache pdfPath document numPages now).2 = [e.document] ∧
        (cachePDF cache pdfPath document numPages now).1 =
          eraseKV cache k ++ [(pdfPath, ⟨document, now, now, 1, numPages⟩)] ∧
        (cachePDF cache pdfPath document numPages now).1.length = 5) ∧
    (∀ (k0 : String) (e0 : ImageCacheEntry) (rest : List (String × ImageCacheEntry))
        (imagePath : String) (image size now : Nat),
      ((k0, e0) :: rest).length = 20 →
      lookupKV ((k0, e0) :: rest) imagePath = none →
      loadImageFromCache ((k0, e0) :: rest) imagePath (Except.ok image) size now =
        (rest ++ [(imagePath, ⟨image, now, 1, size⟩)], Except.ok image, [k0])) ∧
    (∀ (k0 : PageKey) (e0 : PageCacheEntry) (rest : List (PageKey × PageCacheEntry))
        (cacheKey : PageKey) (imageData now : Nat),
      ((k0, e0) :: rest).length = 20 →
      cacheRenderedPage ((k0, e0) :: rest) cacheKey imageData now =
        rest ++ [(cacheKey, ⟨imageData, now⟩)]) := by
  refine ⟨?_, ?_, ?_⟩
  · intro cache pdfPath document numPages now h5 hnone hnd hlt
    obtain ⟨f1, f2, f3⟩ := findOldest_spec cache none now
    rcases f3 with ⟨h1, h2⟩ | ⟨k, e, hmem, h1, h2⟩
    · exfalso
      have hne : cache ≠ [] := by
        intro h
        rw [h] at h5
        simp at h5
      obtain ⟨kv0, hkv0⟩ := List.exists_mem_of_ne_nil cache hne
      have ha := f2 kv0 hkv0
      have hb := hlt kv0 hkv0
      rw [h2] at ha
      omega
    · have hlook : lookupKV cache k = some e := lookupKV_mem_nodup cache k e hmem hnd
      have hred : cachePDF cache pdfPath document numPages now =
          (eraseKV cache k ++ [(pdfPath, ⟨document, now, now, 1, numPages⟩)],
           [e.document]) := by
        simp only [cachePDF, maxPdfCacheSize, h5]
        rw [if_pos (by omega), h1]
        simp only [hlook]
      refine ⟨k, e, hlook, ?_, ?_, ?_, ?_⟩
      · intro kv hkv
        have := f2 kv hkv
        rw [h2] at this
        exact this
      · rw [hred]
      · rw [hred]
      · rw [hred]
        have hlen := eraseKV_length_of_found cache k e hlook
        simp only [List.length_append, List.length_cons, List.length_nil]
        omega
  · intro k0 e0 rest imagePath image size now h20 hnone
    simp only [loadImageFromCache, hnone, maxImageCacheSize]
    rw [if_pos (by omega)]
  · intro k0 e0 rest cacheKey imageData now h20
    simp only [cacheRenderedPage, maxPageCacheSize]
    rw [if_pos (by omega)]
    rfl

/-- C1 counterexample: the decoded-image cache does not evict the
least-recently-accessed entry.  Fill it to capacity 20 (keys "0"–"19"
inserted at times 0–19), then access "0" at time 100 (which bumps its
timestamp, making it the most recently accessed entry), then insert the
distinct key "20".  The evicted entry is "0" — the most recently
accessed — while "1", last accessed at time 1, stays. -/
theorem c1_counterexample :
    (loadImageFromCache
        (imageCacheTouch ((List.range 20).map fun i =>
          (toString i, ImageCacheEntry.mk i i 1 0)) "0" 100)
        "20" (Except.ok 20) 0 101).2.2 = ["0"] ∧
    (lookupKV (imageCacheTouch ((List.range 20).map fun i =>
        (toString i, ImageCacheEntry.mk i i 1 0)) "0" 100) "0").map
      (·.timestamp) = some 100 ∧
    (lookupKV (imageCacheTouch ((List.range 20).map fun i =>
        (toString i, ImageCacheEntry.mk i i 1 0)) "0" 100) "1").map
      (·.timestamp) = some 1 :=
  ⟨rfl, rfl, rfl⟩

/-- C1 witness: the amended eviction theorem at a concrete full PDF
cache and a concrete full image cache. -/
theorem c1_witness :
    let cacheW : List (String × PdfCacheEntry) :=
      [("a", ⟨1, 0, 0, 1, 2⟩), ("b", ⟨2, 1, 1, 1, 2⟩), ("c", ⟨3, 2, 2, 1, 2⟩),
       ("d", ⟨4, 3, 3, 1, 2⟩), ("e", ⟨5, 4, 4, 1, 2⟩)]
    (cacheW.length = 5 ∧ lookupKV cacheW "f" = none ∧
      (cacheW.map (·.1)).Nodup ∧ (∀ kv ∈ cacheW, kv.2.lastAccess < 10)) ∧
    (∃ k e, lookupKV cacheW k = some e ∧
      (∀ kv ∈ cacheW, e.lastAccess ≤ kv.2.lastAccess) ∧
      (cachePDF cacheW "f" 9 3 10).2 = [e.document] ∧
      (cachePDF cacheW "f" 9 3 10).1 =
        eraseKV cacheW k ++ [("f", ⟨9, 10, 10, 1, 3⟩)] ∧
      (cachePDF cacheW "f" 9 3 10).1.length = 5) :=
  ⟨⟨rfl, by decide, by decide, by decide⟩,
   c1_eviction_amended.1
     [("a", ⟨1, 0, 0, 1, 2⟩), ("b", ⟨2, 1, 1, 1, 2⟩), ("c", ⟨3, 2, 2, 1, 2⟩),
      ("d", ⟨4, 3, 3, 1, 2⟩), ("e", ⟨5, 4, 4, 1, 2⟩)]
     "f" 9 3 10 rfl (by decide) (by decide) (by decide)⟩

theorem retryFrom_ok {α : Type} (operationName : String) (online : Nat → Bool)
    (op : Nat → Except String α) (maxRetries k : Nat) (v : α)
    (errs : Nat → String) (a : Nat) (hak : a ≤ k) (hkm : k ≤ maxRetries)
    (hfail : ∀ j, a ≤ j → j < k → attemptOnce online op j = Except.error (errs j))
    (hsucc : attemptOnce online op k = Except.ok v) :
    retryFrom operationName online op maxRetries a = Except.ok v := by
  by_cases hak2 : a = k
  · subst hak2
    rw [retryFrom]
    simp only [hsucc]
  · have halt : a < k := lt_of_le_of_ne hak hak2
    rw [retryFrom]
    simp only [hfail a le_rfl halt]
    rw [if_neg (by omega)]
    exact retryFrom_ok operationName online op maxRetries k v errs (a + 1)
      (by omega) hkm (fun j hj1 hj2 => hfail j (by omega) hj2) hsucc
termination_by k - a
decreasing_by
  simp_wf
  omega

theorem retryFrom_allfail {α : Type} (operationName : String) (online : Nat → Bool)
    (op : Nat → Except String α) (maxRetries : Nat) (errs : Nat → String)
    (a : Nat) (ham : a ≤ maxRetries)
    (hfail : ∀ j, a ≤ j → j ≤ maxRetries →
      attemptOnce online op j = Except.error (errs j)) :
    retryFrom operationName online op maxRetries a =
      Except.error (wrapRetryError operationName maxRetries (errs maxRetries)) := by
  by_cases ha : maxRetries ≤ a
  · have haeq : a = maxRetries := le_antisymm ham ha
    subst haeq
    rw [retryFrom]
    simp only [hfail a le_rfl le_rfl]
    rw [if_pos le_rfl]
  · rw [retryFrom]
    simp only [hfail a le_rfl (by omega)]
    rw [if_neg ha]
    exact retryFrom_allfail operationName online op maxRetries errs (a + 1)
      (by omega) (fun j h1 h2 => hfail j (by omega) h2)
termination_by maxRetries - a
decreasing_by
  simp_wf
  omega

/-- C4: for every operation and `maxAttempts ≥ 1` (the source's
`maxRetries` parameter): (1) the wrapper returns the operation's value
as soon as an attempt succeeds after any run of failing attempts;
(2) when all attempts fail, it raises the wrapped error built from the
operation's name, the attempt count, and the last underlying error's
message; (3) no connectivity check gates the first attempt — its outcome
is the operation's own; (4) before every retry the connectivity check
runs, and when it reports offline the attempt fails with the
connectivity-specific error without invoking the operation (the failure
then flows through the normal retry accounting). -/
theorem c4_retry_behavior (α : Type) (operationName : String) (online : Nat → Bool)
    (op : Nat → Except String α) (maxRetries : Nat) (hmax : 1 ≤ maxRetries) :
    (∀ (k : Nat) (v : α) (errs : Nat → String), 1 ≤ k → k ≤ maxRetries →
      (∀ j, 1 ≤ j → j < k → attemptOnce online op j = Except.error (errs j)) →
      attemptOnce online op k = Except.ok v →
      retryWithBackoff operationName online op maxRetries = Except.ok v) ∧
    (∀ errs : Nat → String,
      (∀ j, 1 ≤ j → j ≤ maxRetries →
        attemptOnce online op j = Except.error (errs j)) →
      retryWithBackoff operationName online op maxRetries =
        Except.error (wrapRetryError operationName maxRetries (errs maxRetries))) ∧
    attemptOnce online op 1 = op 1 ∧
    (∀ j, 1 < j → online j = false →
      attemptOnce online op j = Except.error connectivityErrorMsg) := by
  refine ⟨?_, ?_, ?_, ?_⟩
  · intro k v errs h1 h2 hfail hsucc
    exact retryFrom_ok operationName online op maxRetries k v errs 1 h1 h2 hfail
      hsucc
  · intro errs hfail
    exact retryFrom_allfail operationName online op maxRetries errs 1 hmax hfail
  · simp [attemptOnce]
  · intro j hj ho
    simp [attemptOnce, hj, ho]

/-- C4 witness: an operation failing twice then succeeding on the third
of three attempts returns the success value, and an always-failing
operation raises the wrapped error naming the attempt count and keeping
the last message. -/
theorem c4_witness :
    (1 : Nat) ≤ 3 ∧
    retryWithBackoff "CSV 로딩" (fun _ => true)
      (fun j => if j < 3 then Except.error "boom" else Except.ok 42) 3 =
      Except.ok 42 ∧
    retryWithBackoff "CSV 로딩" (fun _ => true)
      (fun _ => (Except.error "boom" : Except String Nat)) 3 =
      Except.error (wrapRetryError "CSV 로딩" 3 "boom") :=
  ⟨by omega,
   (c4_retry_behavior Nat "CSV 로딩" (fun _ => true)
      (fun j => if j < 3 then Except.error "boom" else Except.ok 42) 3
      (by omega)).1 3 42 (fun _ => "boom") (by omega) (by omega)
     (fun j h1 h2 => by interval_cases j <;> rfl) (by rfl),
   (c4_retry_behavior Nat "CSV 로딩" (fun _ => true)
      (fun _ => (Except.error "boom" : Except String Nat)) 3 (by omega)).2.1
     (fun _ => "boom") (fun j h1 h2 => by simp [attemptOnce])⟩
